import Mathlib

/-!
Verification development for the TeamAssist check-in dashboards.

Source files embedded here:
- `Appl.py` — check-in form: `compute_scores`, `generate_recommendations`,
  and the record appended to the session history on submission.
- `Collecte.py` — consultation dashboard: `load_data` (spreadsheet →
  table with fixed columns) and the sidebar filters applied to the table.

Conventions of the embedding:
- Python ints are `Int`; the float expression `stress*0.6 + (100-motivation)*0.4`
  is embedded over `ℚ` with Mathlib's `round` (round-half-up).  With
  `stress`, `motivation` integers the exact value `(6*stress+4*(100-motivation))/10`
  has fractional part in {0, .2, .4, .6, .8} — never a tie — so Python's
  float round-half-to-even, exact rounding over `ℚ`, and round-half-up all
  agree on every reachable input.
- Python dict lookup (`workload_map[workload]`), which raises `KeyError` on a
  missing key, is embedded as `List.lookup` with an `Except.error "KeyError"`
  result; pandas column access `df[c]` on an absent column likewise.
- `str.lower()` is embedded as a per-character map with `Char.toLower`
  (ASCII case mapping; Python additionally lowercases non-ASCII uppercase
  letters, which no claim exercises — every flagged term is already lowercase).
- Python's substring test `k in text` is `k.data <:+: text` (list infix).
-/

/-- The dict `workload_map = {"Faible": 1, "Moyenne": 3, "Élevée": 5}` (Appl.py line 28). -/
def workload_map : List (String × Int) :=
  [("Faible", 1), ("Moyenne", 3), ("Élevée", 5)]

/-- The dict `conflict_map = {"Non": 1, "Oui (léger)": 3, "Oui (important)": 5}` (Appl.py line 29). -/
def conflict_map : List (String × Int) :=
  [("Non", 1), ("Oui (léger)", 3), ("Oui (important)", 5)]

/-- The `red_flags` keyword list (Appl.py line 48). -/
def red_flags : List String :=
  ["burnout", "épuis", "angoiss", "panic", "déprim", "harcel", "insom", "mal",
   "pression", "overload"]

/-- The test `any(k in text for k in red_flags)` (Appl.py line 49); `text` is the
lower-cased comment as a character list. -/
def keyword_hit_of (text : List Char) : Bool :=
  red_flags.any fun k => decide (k.data <:+: text)

/-- The function `compute_scores` (Appl.py lines 23-54).  Dict lookups on the two enum
strings raise `KeyError` for unrecognized values, embedded as `Except.error`.
`text = (comment or "").lower()` — for a string argument `comment or ""` is
`comment` itself, so the embedding lowers `comment` directly. -/
def compute_scores (mood : Int) (workload : String) (sleep : Int) (focus : Int)
    (conflicts : String) (comment : String) : Except String (Int × Int × Int × Bool) :=
  match workload_map.lookup workload with
  | none => Except.error "KeyError"
  | some w =>
    match conflict_map.lookup conflicts with
    | none => Except.error "KeyError"
    | some c =>
      let stress := max 0 (min 100 ((w * 12) + ((6 - mood) * 10) + ((8 - sleep) * 6)
        + (c * 6) + ((6 - focus) * 8)))
      let motivation := max 0 (min 100 ((mood * 14) + (focus * 10) + (sleep * 6)
        - (w * 8) - (c * 6)))
      let risk0 := max 0 (min 100 (round (((stress : ℚ) * 0.6)
        + (((100 : ℚ) - (motivation : ℚ)) * 0.4))))
      let text := comment.data.map Char.toLower
      let keyword_hit := keyword_hit_of text
      let risk := if keyword_hit then min 100 (risk0 + 10) else risk0
      Except.ok (stress, motivation, risk, keyword_hit)

/-- Integer form of the tuple produced by `compute_scores` once the two enum
lookups have succeeded with weights `w` and `c` (the ℚ rounding replaced by
the equivalent integer division, per `round_point_six_point_four`). -/
def score_tuple (mood w sleep focus c : Int) (comment : String) : Int × Int × Int × Bool :=
  let stress := max 0 (min 100 ((w * 12) + ((6 - mood) * 10) + ((8 - sleep) * 6)
    + (c * 6) + ((6 - focus) * 8)))
  let motivation := max 0 (min 100 ((mood * 14) + (focus * 10) + (sleep * 6)
    - (w * 8) - (c * 6)))
  let risk0 := max 0 (min 100 ((stress * 6 + (100 - motivation) * 4 + 5) / 10))
  let keyword_hit := keyword_hit_of (comment.data.map Char.toLower)
  let risk := if keyword_hit then min 100 (risk0 + 10) else risk0
  (stress, motivation, risk, keyword_hit)

/-- Spec reference formula (§4.1): `stress = 12w + 10(6-mood) + 6(8-sleep_hours)
+ 6c + 8(6-focus)`, clamped to [0,100]. -/
def spec_stress (w mood sleep_hours c focus : Int) : Int :=
  max 0 (min 100 (12 * w + 10 * (6 - mood) + 6 * (8 - sleep_hours) + 6 * c
    + 8 * (6 - focus)))

/-- Spec reference formula (§4.1): `motivation = 14·mood + 10·focus +
6·sleep_hours - 8w - 6c`, clamped to [0,100]. -/
def spec_motivation (w mood sleep_hours c focus : Int) : Int :=
  max 0 (min 100 (14 * mood + 10 * focus + 6 * sleep_hours - 8 * w - 6 * c))

/-- Spec reference formula (§4.1): `risk = round(0.6·stress + 0.4·(100-motivation))`
clamped, then `min(100, risk+10)` when `keyword_flag` is true. -/
def spec_risk (stress motivation : Int) (keyword_flag : Bool) : Int :=
  let r := max 0 (min 100 (round ((0.6 : ℚ) * (stress : ℚ)
    + (0.4 : ℚ) * ((100 : ℚ) - (motivation : ℚ)))))
  if keyword_flag then min 100 (r + 10) else r

/-- Spec keyword rule (§4.1): flag iff the lower-cased comment contains some
term of the fixed flagged-term set as a substring. -/
def spec_keyword_flag (comment : String) : Bool :=
  red_flags.any fun k => decide (k.data <:+: comment.data.map Char.toLower)

/-- Risk band label (Appl.py lines 61-65): `level = "Faible"; if risk >= 70:
"Élevé" elif risk >= 40: "Modéré"`. -/
def riskLevel (risk : Int) : String :=
  if risk ≥ 70 then "Élevé" else if risk ≥ 40 then "Modéré" else "Faible"

/-- The function `generate_recommendations` (Appl.py lines 57-108): summary string, manager
action list, team action list, and the constant human-decision note.  The
High-band manager list gets one extra appended action when `keyword_hit`. -/
def generate_recommendations (stress motivation risk : Int) (keyword_hit : Bool) :
    String × List String × List String × String :=
  let level := riskLevel risk
  let human_note := "⚖️ Décision finale laissée au manager humain (IA = aide à la décision)."
  let manager_actions :=
    if level = "Élevé" then
      ["Planifier un échange 1:1 sous 48h (écoute active, sans jugement).",
       "Réduire temporairement la charge / re-prioriser les tâches.",
       "Clarifier les attentes, délais, et points de blocage.",
       "Proposer un soutien (mentorat, binômage, pause planifiée)."]
      ++ (if keyword_hit then
            ["⚠️ Mots-clés sensibles détectés : renforcer l’attention humaine, proposer un accompagnement adapté."]
          else [])
    else if level = "Modéré" then
      ["Faire un check-in rapide (10 min) cette semaine.",
       "Ajuster l’organisation : répartition, planning, micro-deadlines.",
       "Encourager la communication sur les obstacles."]
    else
      ["Maintenir le cadre actuel et valoriser les efforts.",
       "Préserver un bon équilibre : charge stable, feedback régulier."]
  let team_actions :=
    if level = "Élevé" then
      ["Définir 1–2 priorités maximum pour la prochaine période.",
       "Bloquer une pause et une plage sans interruptions.",
       "Demander de l’aide sur une tâche précise (pair-programming / relecture / support)."]
    else if level = "Modéré" then
      ["Lister les blocages et proposer une solution / besoin.",
       "Mettre en place une routine courte de suivi (5 min/jour)."]
    else
      ["Continuer les bonnes pratiques (organisation, pauses, communication)."]
  let summary := "Niveau de risque : **" ++ level ++ "** (score " ++ toString risk ++ "/100)."
  (summary, manager_actions, team_actions, human_note)

/-- A coerced table cell value: a raw string cell, a numeric cell
(`pd.to_numeric`), or a date-time cell (`pd.to_datetime`, embedded as an
integer day ordinal — no claim distinguishes times within a day). -/
inductive Val where
  | vstr : String → Val
  | vnum : ℚ → Val
  | vdt : Int → Val
deriving DecidableEq

/-- A cell; `none` is pandas' missing value (None / NaN / NaT). -/
abbrev Cell := Option Val

/-- A pandas DataFrame, embedded as an ordered list of named columns. -/
abbrev DF := List (String × List Cell)

/-- The fixed expected column list `cols` (Collecte.py lines 29-33). -/
def cols : List String :=
  ["timestamp", "organization", "user_role", "mood", "workload", "sleep_hours",
   "focus", "conflicts", "comment"]

/-- Read access `df[name]`: first column with that name, if any. -/
def getCol (df : DF) (name : String) : Option (List Cell) :=
  (df.find? fun p => p.1 == name).map fun p => p.2

/-- Column assignment `df[name] = vals`: replace the column in place if present, else append it
at the end (pandas column-assignment order). -/
def setCol (df : DF) (name : String) (vals : List Cell) : DF :=
  if name ∈ df.map Prod.fst then
    df.map fun p => if p.1 == name then (p.1, vals) else p
  else df ++ [(name, vals)]

/-- One `errors="coerce"` column coercion: parse raw string cells, turn
everything unparseable (or already missing) into missing. -/
def coerce (parse : String → Option Val) (cell : Cell) : Cell :=
  match cell with
  | some (Val.vstr s) => parse s
  | _ => none

/-- Coercion `df[name] = pd.to_xxx(df[name], errors="coerce")`: reading a column that
is absent raises `KeyError`, exactly as pandas does. -/
def coerceCol (df : DF) (name : String) (parse : String → Option Val) :
    Except String DF :=
  match getCol df name with
  | none => Except.error ("KeyError: " ++ name)
  | some cells => Except.ok (setCol df name (cells.map (coerce parse)))

/-- One step of the missing-column loop (Collecte.py lines 47-49):
`if c not in df.columns: df[c] = None`, where the new column holds `k` rows
of missing values. -/
def fillStep (k : Nat) (d : DF) (c : String) : DF :=
  if c ∈ d.map Prod.fst then d else d ++ [(c, List.replicate k (none : Cell))]

/-- The whole missing-column loop `for c in cols: ...` over a table with `k`
rows. -/
def fill_missing_cols (k : Nat) (df : DF) : DF :=
  cols.foldl (fillStep k) df

/-- The non-degenerate body of `load_data` (Collecte.py lines 37-51):
`pd.DataFrame(rows, columns=header)`, the type coercions, the missing-column
loop, and the final projection `df[cols]`.  The type coercions delegate to the
external parsers `toDatetime` / `toNumeric` (pandas owns the real parsing),
taken as parameters; the `for c in ["mood","sleep_hours","focus"]` loop is
unrolled. -/
def load_table (toDatetime : String → Option Int) (toNumeric : String → Option ℚ)
    (header : List String) (rows : List (List String)) : Except String DF :=
  let df0 : DF := header.enum.map fun p =>
    (p.2, rows.map fun r => (r.get? p.1).map Val.vstr)
  match coerceCol df0 "timestamp" (fun s => (toDatetime s).map Val.vdt) with
  | Except.error e => Except.error e
  | Except.ok df1 =>
    match coerceCol df1 "mood" (fun s => (toNumeric s).map Val.vnum) with
    | Except.error e => Except.error e
    | Except.ok df2 =>
      match coerceCol df2 "sleep_hours" (fun s => (toNumeric s).map Val.vnum) with
      | Except.error e => Except.error e
      | Except.ok df3 =>
        match coerceCol df3 "focus" (fun s => (toNumeric s).map Val.vnum) with
        | Except.error e => Except.error e
        | Except.ok df4 =>
          Except.ok (cols.map fun c =>
            (c, (getCol (fill_missing_cols rows.length df4) c).getD []))

/-- The function `load_data` (Collecte.py lines 23-51), from the point where the worksheet
has produced `values` (a list of rows of string cells; the spreadsheet client
itself is an external collaborator).  `if not values or len(values) < 2:`
returns the empty table over the fixed columns; otherwise the body
`load_table` runs on `header = values[0]`, `rows = values[1:]`. -/
def load_data (toDatetime : String → Option Int) (toNumeric : String → Option ℚ)
    (values : List (List String)) : Except String DF :=
  match values with
  | [] => Except.ok (cols.map fun c => (c, ([] : List Cell)))
  | header :: rows =>
    if rows.isEmpty then Except.ok (cols.map fun c => (c, ([] : List Cell)))
    else load_table toDatetime toNumeric header rows

/-- Concrete stand-in for the external `pd.to_datetime` parser, for witnesses. -/
def toDatetime0 (s : String) : Option Int := s.toInt?

/-- Concrete stand-in for the external `pd.to_numeric` parser, for witnesses. -/
def toNumeric0 (s : String) : Option ℚ := (s.toInt?).map fun n => (n : ℚ)

/-- One row of the consultation table, as the filters see it (missing cells
are `none`; `timestamp` is the coerced date). -/
structure SrcRecord where
  timestamp : Option Int
  organization : Option String
  user_role : Option String
  mood : Option ℚ
  workload : Option String
  sleep_hours : Option ℚ
  focus : Option ℚ
  conflicts : Option String
  comment : Option String
deriving DecidableEq

/-- The mask `filtered["organization"].isin(org_filter)` on one row: a missing cell
compares False in pandas. -/
def orgPass (org_filter : List String) (r : SrcRecord) : Bool :=
  match r.organization with
  | some o => org_filter.contains o
  | none => false

/-- The mask `filtered["user_role"].isin(role_filter)` on one row. -/
def rolePass (role_filter : List String) (r : SrcRecord) : Bool :=
  match r.user_role with
  | some u => role_filter.contains u
  | none => false

/-- The mask `(timestamp.dt.date >= start) & (timestamp.dt.date <= end)` on one row:
comparisons against a missing timestamp are False in pandas. -/
def datePass (start stop : Int) (r : SrcRecord) : Bool :=
  match r.timestamp with
  | some t => decide (start ≤ t) && decide (t ≤ stop)
  | none => false

/-- The organization and role filters (Collecte.py lines 101-106): each is
applied only when its selection list is non-empty (Python truthiness). -/
def org_role_filtered (records : List SrcRecord)
    (org_filter role_filter : List String) : List SrcRecord :=
  let f1 := if org_filter.isEmpty then records else records.filter (orgPass org_filter)
  if role_filter.isEmpty then f1 else f1.filter (rolePass role_filter)

/-- All sidebar filters (Collecte.py lines 101-113).  The date mask is applied
only when a full two-sided `date_range` is present AND the already
org/role-filtered table has at least one non-missing timestamp
(`filtered["timestamp"].notna().any()`). -/
def apply_filters (records : List SrcRecord) (org_filter role_filter : List String)
    (date_range : Option (Int × Int)) : List SrcRecord :=
  let f2 := org_role_filtered records org_filter role_filter
  match date_range with
  | none => f2
  | some (start, stop) =>
    if f2.any (fun r => r.timestamp.isSome) then f2.filter (datePass start stop)
    else f2

/-- One record of the in-session history (Appl.py lines 209-223), field for
field as the appended dict. -/
structure CheckInRec where
  date : String
  org : String
  role : String
  mood : Int
  workload : String
  sleep : Int
  focus : Int
  conflicts : String
  stress : Int
  motivation : Int
  risk : Int
  flag_keywords : Bool
  comment : String

/-- The submit path (Appl.py lines 205-223): compute the scores from the
submitted inputs, then build the history record; the stored comment is
`"" if anonym else (comment or "")` — for a string argument `comment or ""`
is `comment` itself.  `now` stands for the formatted `datetime.now()` string,
an input of the embedding. -/
def submit_checkin (now org role : String) (mood : Int) (workload : String)
    (sleep focus : Int) (conflicts comment : String) (anonym : Bool) :
    Except String CheckInRec :=
  match compute_scores mood workload sleep focus conflicts comment with
  | Except.error e => Except.error e
  | Except.ok (stress, motivation, risk, keyword_hit) =>
    Except.ok
      { date := now, org := org, role := role, mood := mood, workload := workload,
        sleep := sleep, focus := focus, conflicts := conflicts, stress := stress,
        motivation := motivation, risk := risk, flag_keywords := keyword_hit,
        comment := if anonym then "" else comment }

/-- A concrete record with a missing timestamp, for the C6 counterexample. -/
def rec_no_ts : SrcRecord :=
  { timestamp := none, organization := some "Équipe projet",
    user_role := some "Manager", mood := none, workload := none,
    sleep_hours := none, focus := none, conflicts := none, comment := none }

/-- A concrete record with a present timestamp, for the C6 witness. -/
def rec_with_ts : SrcRecord :=
  { timestamp := some 5, organization := some "Équipe projet",
    user_role := some "Manager", mood := none, workload := none,
    sleep_hours := none, focus := none, conflicts := none, comment := none }

/-- The exact value of `stress*0.6 + (100-motivation)*0.4 + 1/2` is
`(6*stress + 4*(100-motivation) + 5)/10`, so the round-half-up `round` over `ℚ`
equals that integer division.  (See the header note: Python's float
round-half-to-even agrees, because the exact value is never a half-integer.) -/
theorem round_point_six_point_four (s m : Int) :
    round (((s : ℚ) * 0.6) + (((100 : ℚ) - (m : ℚ)) * 0.4))
      = (s * 6 + (100 - m) * 4 + 5) / 10 := by
  rw [round_eq]
  have h : (((s : ℚ) * 0.6) + (((100 : ℚ) - (m : ℚ)) * 0.4)) + 1 / 2
      = ((s * 6 + (100 - m) * 4 + 5 : Int) : ℚ) / ((10 : ℕ) : ℚ) := by
    push_cast
    ring
  rw [h, Rat.floor_intCast_div_natCast]
  norm_num

/-- When both enum lookups succeed, `compute_scores` returns `score_tuple`. -/
theorem compute_scores_eq_ok (mood sleep focus : Int) (wl cf : String) (w c : Int)
    (comment : String) (hw : workload_map.lookup wl = some w)
    (hc : conflict_map.lookup cf = some c) :
    compute_scores mood wl sleep focus cf comment
      = Except.ok (score_tuple mood w sleep focus c comment) := by
  unfold compute_scores score_tuple
  rw [hw, hc]
  simp only [round_point_six_point_four]

/-- The spec formulas, assembled, give exactly `score_tuple`. -/
theorem spec_tuple_eq_score_tuple (mood w sleep focus c : Int) (comment : String) :
    (spec_stress w mood sleep c focus,
     spec_motivation w mood sleep c focus,
     spec_risk (spec_stress w mood sleep c focus)
       (spec_motivation w mood sleep c focus) (spec_keyword_flag comment),
     spec_keyword_flag comment)
    = score_tuple mood w sleep focus c comment := by
  unfold spec_stress spec_motivation spec_risk spec_keyword_flag score_tuple keyword_hit_of
  have hs : 12 * w + 10 * (6 - mood) + 6 * (8 - sleep) + 6 * c + 8 * (6 - focus)
      = (w * 12) + ((6 - mood) * 10) + ((8 - sleep) * 6) + (c * 6) + ((6 - focus) * 8) := by
    ring
  have hm : 14 * mood + 10 * focus + 6 * sleep - 8 * w - 6 * c
      = (mood * 14) + (focus * 10) + (sleep * 6) - (w * 8) - (c * 6) := by
    ring
  have hr : ∀ s m : Int, (0.6 : ℚ) * (s : ℚ) + (0.4 : ℚ) * ((100 : ℚ) - (m : ℚ))
      = ((s : ℚ) * 0.6) + (((100 : ℚ) - (m : ℚ)) * 0.4) := by
    intro s m
    ring
  simp only [hs, hm, hr, round_point_six_point_four]

/-- C1: for every valid input (mood in 1..5, workload and conflicts among the
recognized enum strings with severity weights `w` and `c`, sleep in 0..10,
focus in 1..5, any comment), `compute_scores` returns exactly the spec's
reference-formula values; in particular
`compute_scores(5, "Faible", 8, 5, "Non", "")` = (36, 100, 22, false). -/
theorem compute_scores_matches_spec_formulas
    (mood sleep focus : Int) (wl cf comment : String) (w c : Int)
    (hmood : 1 ≤ mood ∧ mood ≤ 5) (hsleep : 0 ≤ sleep ∧ sleep ≤ 10)
    (hfocus : 1 ≤ focus ∧ focus ≤ 5)
    (hw : workload_map.lookup wl = some w) (hc : conflict_map.lookup cf = some c) :
    compute_scores mood wl sleep focus cf comment
      = Except.ok (spec_stress w mood sleep c focus,
          spec_motivation w mood sleep c focus,
          spec_risk (spec_stress w mood sleep c focus)
            (spec_motivation w mood sleep c focus) (spec_keyword_flag comment),
          spec_keyword_flag comment)
    ∧ compute_scores 5 "Faible" 8 5 "Non" "" = Except.ok (36, 100, 22, false) := by
  constructor
  · rw [compute_scores_eq_ok mood sleep focus wl cf w c comment hw hc,
      spec_tuple_eq_score_tuple]
  · rw [compute_scores_eq_ok 5 8 5 "Faible" "Non" 1 1 "" rfl rfl]
    exact congrArg Except.ok (by decide)

/-- Witness for C1 at a concrete valid input. -/
theorem compute_scores_matches_spec_formulas_witness :
    compute_scores 3 "Moyenne" 7 3 "Oui (léger)" "ok" =
      Except.ok (spec_stress 3 3 7 3 3,
        spec_motivation 3 3 7 3 3,
        spec_risk (spec_stress 3 3 7 3 3) (spec_motivation 3 3 7 3 3)
          (spec_keyword_flag "ok"),
        spec_keyword_flag "ok") :=
  (compute_scores_matches_spec_formulas 3 7 3 "Moyenne" "Oui (léger)" "ok" 3 3
    ⟨by decide, by decide⟩ ⟨by decide, by decide⟩ ⟨by decide, by decide⟩ rfl rfl).1

/-- C2: for every valid input, each of stress, motivation and risk returned by
`compute_scores` lies in [0,100], including after the +10 keyword adjustment. -/
theorem compute_scores_in_range
    (mood sleep focus : Int) (wl cf comment : String)
    (hmood : 1 ≤ mood ∧ mood ≤ 5) (hsleep : 0 ≤ sleep ∧ sleep ≤ 10)
    (hfocus : 1 ≤ focus ∧ focus ≤ 5) (s m r : Int) (k : Bool)
    (h : compute_scores mood wl sleep focus cf comment = Except.ok (s, m, r, k)) :
    (0 ≤ s ∧ s ≤ 100) ∧ (0 ≤ m ∧ m ≤ 100) ∧ (0 ≤ r ∧ r ≤ 100) := by
  cases hw : workload_map.lookup wl with
  | none => simp [compute_scores, hw] at h
  | some w =>
    cases hc : conflict_map.lookup cf with
    | none => simp [compute_scores, hw, hc] at h
    | some c =>
      rw [compute_scores_eq_ok mood sleep focus wl cf w c comment hw hc] at h
      injection h with h'
      unfold score_tuple at h'
      simp only [Prod.mk.injEq] at h'
      obtain ⟨h1, h2, h3, h4⟩ := h'
      subst h1 h2 h4
      cases hk : keyword_hit_of (comment.data.map Char.toLower) <;>
        simp only [hk, if_true, if_false, Bool.false_eq_true, ite_false, ite_true] at h3 <;>
        subst h3 <;> omega

/-- Witness for C2 at a concrete valid input. -/
theorem compute_scores_in_range_witness :
    ((0:Int) ≤ 36 ∧ (36:Int) ≤ 100) ∧ ((0:Int) ≤ 100 ∧ (100:Int) ≤ 100)
      ∧ ((0:Int) ≤ 22 ∧ (22:Int) ≤ 100) :=
  compute_scores_in_range 5 8 5 "Faible" "Non" ""
    ⟨by decide, by decide⟩ ⟨by decide, by decide⟩ ⟨by decide, by decide⟩
    36 100 22 false
    (by rw [compute_scores_eq_ok 5 8 5 "Faible" "Non" 1 1 "" rfl rfl]
        exact congrArg Except.ok (by decide))

/-- C9: a workload string outside the three recognized values, or a conflicts
string outside the three recognized values, makes `compute_scores` fail with
the dict lookup error (`KeyError`) instead of defaulting. -/
theorem compute_scores_rejects_bad_enum
    (mood sleep focus : Int) (wl cf comment : String)
    (h : workload_map.lookup wl = none ∨ conflict_map.lookup cf = none) :
    compute_scores mood wl sleep focus cf comment = Except.error "KeyError" := by
  rcases h with h | h
  · simp [compute_scores, h]
  · cases hw : workload_map.lookup wl <;> simp [compute_scores, h, hw]

/-- Witness for C9: an unrecognized workload string. -/
theorem compute_scores_rejects_bad_enum_witness :
    compute_scores 3 "bogus" 7 3 "Non" "" = Except.error "KeyError" :=
  compute_scores_rejects_bad_enum 3 7 3 "bogus" "Non" "" (Or.inl rfl)

/-- Lowercasing a character list preserves an occurrence of the all-lowercase
word "overload". -/
theorem lower_keeps_overload (comment : String)
    (h : "overload".data <:+: comment.data) :
    "overload".data <:+: comment.data.map Char.toLower := by
  obtain ⟨s, t, hst⟩ := h
  refine ⟨s.map Char.toLower, t.map Char.toLower, ?_⟩
  rw [← hst]
  simp only [List.map_append]
  have hov : ("overload".data).map Char.toLower = "overload".data := by decide
  rw [hov]

/-- C4: with the five indicators fixed and valid, a comment containing
"overload" flips `keyword_flag` to true and yields a risk of exactly
`min 100 (r + 10)` where `r` is the risk for the empty comment; and for any
comment, `keyword_flag` is true iff the lower-cased comment contains some term
of the fixed flagged-term set as a substring. -/
theorem compute_scores_overload_effect
    (mood sleep focus : Int) (wl cf : String) (w c : Int)
    (comment comment2 : String)
    (hmood : 1 ≤ mood ∧ mood ≤ 5) (hsleep : 0 ≤ sleep ∧ sleep ≤ 10)
    (hfocus : 1 ≤ focus ∧ focus ≤ 5)
    (hw : workload_map.lookup wl = some w) (hc : conflict_map.lookup cf = some c)
    (hover : "overload".data <:+: comment.data) :
    (∀ s m r b, compute_scores mood wl sleep focus cf "" = Except.ok (s, m, r, b) →
      compute_scores mood wl sleep focus cf comment = Except.ok (s, m, min 100 (r + 10), true))
    ∧ (∀ s m r b, compute_scores mood wl sleep focus cf comment2 = Except.ok (s, m, r, b) →
      (b = true ↔ ∃ t ∈ red_flags, t.data <:+: comment2.data.map Char.toLower)) := by
  have hktrue : keyword_hit_of (comment.data.map Char.toLower) = true := by
    unfold keyword_hit_of
    rw [List.any_eq_true]
    exact ⟨"overload", by decide, decide_eq_true (lower_keeps_overload comment hover)⟩
  constructor
  · intro s m r b h
    rw [compute_scores_eq_ok mood sleep focus wl cf w c "" hw hc] at h
    injection h with h'
    unfold score_tuple at h'
    have hkempty : keyword_hit_of (("".data).map Char.toLower) = false := by decide
    simp only [hkempty, Bool.false_eq_true, if_false, ite_false, Prod.mk.injEq] at h'
    obtain ⟨h1, h2, h3, h4⟩ := h'
    rw [compute_scores_eq_ok mood sleep focus wl cf w c comment hw hc]
    unfold score_tuple
    rw [h1, h2] at h3
    simp only [hktrue, if_true, ite_true, h1, h2, h3]
  · intro s m r b h
    rw [compute_scores_eq_ok mood sleep focus wl cf w c comment2 hw hc] at h
    injection h with h'
    unfold score_tuple at h'
    simp only [Prod.mk.injEq] at h'
    obtain ⟨-, -, -, h4⟩ := h'
    rw [← h4]
    unfold keyword_hit_of
    rw [List.any_eq_true]
    simp only [decide_eq_true_eq]

/-- Witness for C4 at a concrete input: mood=3, workload "Faible", sleep=7,
focus=3, conflicts "Non"; empty comment gives risk 47, the "overload" comment
gives risk 57 and flag true. -/
theorem compute_scores_overload_effect_witness :
    compute_scores 3 "Faible" 7 3 "Non" "un overload imminent"
      = Except.ok (78, 100, min 100 (47 + 10), true) :=
  (compute_scores_overload_effect 3 7 3 "Faible" "Non" 1 1 "un overload imminent" "x"
    ⟨by decide, by decide⟩ ⟨by decide, by decide⟩ ⟨by decide, by decide⟩ rfl rfl
    (by decide)).1 78 100 47 false
    (by rw [compute_scores_eq_ok 3 7 3 "Faible" "Non" 1 1 "" rfl rfl]
        exact congrArg Except.ok (by decide))

/-- C3: the band is selected from `risk` alone with inclusive thresholds —
the summary of `generate_recommendations` interpolates `riskLevel risk` for
every stress/motivation/keyword_flag, `risk ≥ 70` gives "Élevé" (High),
`40 ≤ risk < 70` gives "Modéré" (Moderate), `risk < 40` gives "Faible" (Low);
at the boundaries, 70 is High, 69 and 40 are Moderate, 39 is Low. -/
theorem risk_band_thresholds (stress motivation risk : Int) (keyword_hit : Bool) :
    ((generate_recommendations stress motivation risk keyword_hit).1
      = "Niveau de risque : **" ++ riskLevel risk ++ "** (score " ++ toString risk ++ "/100).")
    ∧ (70 ≤ risk → riskLevel risk = "Élevé")
    ∧ (40 ≤ risk → risk < 70 → riskLevel risk = "Modéré")
    ∧ (risk < 40 → riskLevel risk = "Faible")
    ∧ riskLevel 70 = "Élevé" ∧ riskLevel 69 = "Modéré"
    ∧ riskLevel 40 = "Modéré" ∧ riskLevel 39 = "Faible" := by
  refine ⟨rfl, ?_, ?_, ?_, by decide, by decide, by decide, by decide⟩
  · intro h
    unfold riskLevel
    rw [if_pos (by omega)]
  · intro h1 h2
    unfold riskLevel
    rw [if_neg (by omega), if_pos (by omega)]
  · intro h
    unfold riskLevel
    rw [if_neg (by omega), if_neg (by omega)]

/-- Witness for C3 at the boundary value 70. -/
theorem risk_band_thresholds_witness : riskLevel 70 = "Élevé" :=
  (risk_band_thresholds 0 0 70 false).2.1 (by decide)

/-- C10: for every input, the manager and team action lists are non-empty, and
in the High band the keyword flag appends exactly one extra manager action at
the end of the list. -/
theorem recommendations_nonempty_and_keyword_append
    (stress motivation risk : Int) (keyword_hit : Bool) :
    (generate_recommendations stress motivation risk keyword_hit).2.1 ≠ []
    ∧ (generate_recommendations stress motivation risk keyword_hit).2.2.1 ≠ []
    ∧ (riskLevel risk = "Élevé" →
        (generate_recommendations stress motivation risk true).2.1
          = (generate_recommendations stress motivation risk false).2.1
            ++ ["⚠️ Mots-clés sensibles détectés : renforcer l’attention humaine, proposer un accompagnement adapté."]) := by
  unfold generate_recommendations
  refine ⟨?_, ?_, ?_⟩
  · rcases h1 : decide (riskLevel risk = "Élevé") with _ | _ <;>
      rcases h2 : decide (riskLevel risk = "Modéré") with _ | _ <;>
      simp_all <;> cases keyword_hit <;> simp
  · rcases h1 : decide (riskLevel risk = "Élevé") with _ | _ <;>
      rcases h2 : decide (riskLevel risk = "Modéré") with _ | _ <;>
      simp_all
  · intro h
    simp [h]

/-- Witness for C10 in the High band. -/
theorem recommendations_nonempty_and_keyword_append_witness :
    (generate_recommendations 80 20 80 true).2.1
      = (generate_recommendations 80 20 80 false).2.1
        ++ ["⚠️ Mots-clés sensibles détectés : renforcer l’attention humaine, proposer un accompagnement adapté."] :=
  (recommendations_nonempty_and_keyword_append 80 20 80 true).2.2 (by decide)

/-- C8: with the anonymization flag set, the stored record's comment is the
empty string; every other field — including stress, motivation, risk and
keyword_flag, still computed from the original comment — equals the
corresponding field of the non-anonymized record, which stores the literal
comment text. -/
theorem anonymization_redacts_only_comment
    (now org role : String) (mood : Int) (workload : String) (sleep focus : Int)
    (conflicts comment : String) (s m r : Int) (k : Bool)
    (h : compute_scores mood workload sleep focus conflicts comment
      = Except.ok (s, m, r, k)) :
    submit_checkin now org role mood workload sleep focus conflicts comment true
      = Except.ok
          { date := now, org := org, role := role, mood := mood,
            workload := workload, sleep := sleep, focus := focus,
            conflicts := conflicts, stress := s, motivation := m, risk := r,
            flag_keywords := k, comment := "" }
    ∧ submit_checkin now org role mood workload sleep focus conflicts comment false
      = Except.ok
          { date := now, org := org, role := role, mood := mood,
            workload := workload, sleep := sleep, focus := focus,
            conflicts := conflicts, stress := s, motivation := m, risk := r,
            flag_keywords := k, comment := comment } := by
  unfold submit_checkin
  rw [h]
  exact ⟨rfl, rfl⟩

/-- Witness for C8: a flagged comment is redacted but its scores are kept. -/
theorem anonymization_redacts_only_comment_witness :
    submit_checkin "2024-01-01 09:00" "Équipe projet" "Manager"
        3 "Moyenne" 7 3 "Non" "pression" true
      = Except.ok
          { date := "2024-01-01 09:00", org := "Équipe projet",
            role := "Manager", mood := 3, workload := "Moyenne", sleep := 7,
            focus := 3, conflicts := "Non", stress := 100, motivation := 84,
            risk := 76, flag_keywords := true, comment := "" } :=
  (anonymization_redacts_only_comment "2024-01-01 09:00" "Équipe projet" "Manager"
    3 "Moyenne" 7 3 "Non" "pression" 100 84 76 true
    (by rw [compute_scores_eq_ok 3 7 3 "Moyenne" "Non" 3 1 "pression" rfl rfl]
        exact congrArg Except.ok (by decide))).1

/-- C7: on an empty or header-only source, `load_data` returns (without any
error) the empty table whose columns are exactly the fixed expected column
set, in order. -/
theorem load_data_empty_source (toDT : String → Option Int) (toNum : String → Option ℚ)
    (values : List (List String)) (h : values.length < 2) :
    load_data toDT toNum values = Except.ok (cols.map fun c => (c, ([] : List Cell)))
    ∧ (cols.map fun c => (c, ([] : List Cell))).map Prod.fst = cols := by
  refine ⟨?_, rfl⟩
  match values with
  | [] => rfl
  | [hd] => rfl
  | hd :: x :: xs => exact absurd h (by simp)

/-- Witness for C7 on the empty source. -/
theorem load_data_empty_source_witness :
    load_data toDatetime0 toNumeric0 []
      = Except.ok (cols.map fun c => (c, ([] : List Cell)))
    ∧ (cols.map fun c => (c, ([] : List Cell))).map Prod.fst = cols :=
  load_data_empty_source toDatetime0 toNumeric0 [] (by decide)

/-- A column name is absent from a table exactly when `getCol` returns none. -/
theorem getCol_eq_none_iff (df : DF) (n : String) :
    getCol df n = none ↔ n ∉ df.map Prod.fst := by
  unfold getCol
  simp only [Option.map_eq_none', List.find?_eq_none, beq_iff_eq, List.mem_map,
    not_exists]
  constructor
  · intro h x hx
    exact h x hx.1 hx.2
  · intro h x hx hfst
    exact h x ⟨hx, hfst⟩

/-- A column present in the table is read back by `getCol`. -/
theorem getCol_isSome_of_mem (df : DF) (n : String) (h : n ∈ df.map Prod.fst) :
    ∃ v, getCol df n = some v := by
  cases hg : getCol df n with
  | none => exact absurd h ((getCol_eq_none_iff df n).mp hg)
  | some v => exact ⟨v, rfl⟩

/-- Replacing an existing column does not change the column-name list. -/
theorem setCol_names_of_mem (df : DF) (n : String) (v : List Cell)
    (h : n ∈ df.map Prod.fst) :
    (setCol df n v).map Prod.fst = df.map Prod.fst := by
  unfold setCol
  rw [if_pos h, List.map_map]
  apply List.map_congr_left
  intro p hp
  simp only [Function.comp_apply]
  split <;> rfl

/-- Coercing a present column succeeds and keeps the column-name list. -/
theorem coerceCol_ok (df : DF) (n : String) (parse : String → Option Val)
    (h : n ∈ df.map Prod.fst) :
    ∃ df', coerceCol df n parse = Except.ok df'
      ∧ df'.map Prod.fst = df.map Prod.fst := by
  obtain ⟨v, hv⟩ := getCol_isSome_of_mem df n h
  refine ⟨setCol df n (v.map (coerce parse)), ?_, setCol_names_of_mem df n _ h⟩
  unfold coerceCol
  rw [hv]

/-- Applying `fillStep` keeps every existing column readable with the same content. -/
theorem fillStep_getCol_some (k : Nat) (d : DF) (c c0 : String) (v : List Cell)
    (h : getCol d c0 = some v) : getCol (fillStep k d c) c0 = some v := by
  unfold fillStep
  split
  · exact h
  · unfold getCol at h ⊢
    rw [List.find?_append]
    cases hf : List.find? (fun p => p.1 == c0) d with
    | none => rw [hf] at h; simp at h
    | some p => rw [hf] at h; simpa using h

/-- A column absent before `fillStep` on a different name stays absent. -/
theorem fillStep_not_mem (k : Nat) (d : DF) (c c0 : String)
    (hnot : c0 ∉ d.map Prod.fst) (hne : c ≠ c0) :
    c0 ∉ (fillStep k d c).map Prod.fst := by
  unfold fillStep
  split
  · exact hnot
  · rw [List.map_append]
    intro hmem
    rcases List.mem_append.mp hmem with hl | hr
    · exact hnot hl
    · simp at hr
      exact hne hr.symm

/-- Folding `fillStep` keeps every existing column readable. -/
theorem foldl_fillStep_getCol_some (k : Nat) (L : List String) (d : DF)
    (c0 : String) (v : List Cell) (h : getCol d c0 = some v) :
    getCol (L.foldl (fillStep k) d) c0 = some v := by
  induction L generalizing d with
  | nil => exact h
  | cons hd tl ih => exact ih _ (fillStep_getCol_some k d hd c0 v h)

/-- Folding `fillStep` over a list containing an absent column name adds that
column as `k` missing values. -/
theorem foldl_fillStep_missing (k : Nat) (L : List String) (d : DF) (c0 : String)
    (hnot : c0 ∉ d.map Prod.fst) (hmem : c0 ∈ L) :
    getCol (L.foldl (fillStep k) d) c0 = some (List.replicate k (none : Cell)) := by
  induction L generalizing d with
  | nil => cases hmem
  | cons hd tl ih =>
    rw [List.foldl_cons]
    by_cases hc : hd = c0
    · subst hc
      have hstep : fillStep k d hd = d ++ [(hd, List.replicate k (none : Cell))] := by
        unfold fillStep
        rw [if_neg hnot]
      have hget : getCol (d ++ [(hd, List.replicate k (none : Cell))]) hd
          = some (List.replicate k (none : Cell)) := by
        unfold getCol
        rw [List.find?_append]
        have hnone : List.find? (fun p => p.1 == hd) d = none := by
          rw [List.find?_eq_none]
          intro x hx
          simp only [beq_iff_eq]
          exact fun heq => hnot (heq ▸ List.mem_map_of_mem Prod.fst hx)
        rw [hnone, Option.none_or, List.find?_cons_of_pos _ (by simp)]
        rfl
      rw [hstep]
      exact foldl_fillStep_getCol_some k tl _ hd _ hget
    · have hmem' : c0 ∈ tl := by
        rcases List.mem_cons.mp hmem with h1 | h1
        · exact absurd h1.symm hc
        · exact h1
      exact ih (fillStep k d hd) (fillStep_not_mem k d hd c0 hnot hc) hmem'

/-- Reading from a table built by pairing a name list with per-name contents. -/
theorem getCol_of_build (L : List String) (f : String → List Cell) (c : String)
    (h : c ∈ L) :
    getCol (L.map fun x => (x, f x)) c = some (f c) := by
  induction L with
  | nil => cases h
  | cons hd tl ih =>
    by_cases hc : hd = c
    · subst hc
      unfold getCol
      rw [List.map_cons, List.find?_cons_of_pos _ (by simp)]
      rfl
    · unfold getCol at ih ⊢
      rw [List.map_cons, List.find?_cons_of_neg _ (by simp [hc])]
      exact ih (by
        rcases List.mem_cons.mp h with h1 | h1
        · exact absurd h1.symm hc
        · exact h1)

/-- The column names of the raw loaded table are exactly the source header. -/
theorem df0_names (header : List String) (rows : List (List String)) :
    ((header.enum.map fun p =>
      (p.2, rows.map fun r => (r.get? p.1).map Val.vstr)).map Prod.fst) = header := by
  rw [List.map_map]
  have h : (Prod.fst ∘ fun p : Nat × String =>
      (p.2, rows.map fun r => (r.get? p.1).map Val.vstr)) = Prod.snd := by
    funext p
    rfl
  rw [h, List.enum_map_snd]

/-- When the header contains the four coerced columns, `load_table` succeeds
and produces the filled, projected table over some coerced `df4` whose column
names are the header. -/
theorem load_table_ok (toDT : String → Option Int) (toNum : String → Option ℚ)
    (header : List String) (rows : List (List String))
    (hts : "timestamp" ∈ header) (hmd : "mood" ∈ header)
    (hsl : "sleep_hours" ∈ header) (hfc : "focus" ∈ header) :
    ∃ df4, load_table toDT toNum header rows
        = Except.ok (cols.map fun c =>
            (c, (getCol (fill_missing_cols rows.length df4) c).getD []))
      ∧ df4.map Prod.fst = header := by
  obtain ⟨df1, h1, hn1⟩ :=
    coerceCol_ok (header.enum.map fun p =>
      (p.2, rows.map fun r => (r.get? p.1).map Val.vstr))
      "timestamp" (fun s => (toDT s).map Val.vdt)
      (by rw [df0_names]; exact hts)
  obtain ⟨df2, h2, hn2⟩ :=
    coerceCol_ok df1 "mood" (fun s => (toNum s).map Val.vnum)
      (by rw [hn1, df0_names]; exact hmd)
  obtain ⟨df3, h3, hn3⟩ :=
    coerceCol_ok df2 "sleep_hours" (fun s => (toNum s).map Val.vnum)
      (by rw [hn2, hn1, df0_names]; exact hsl)
  obtain ⟨df4, h4, hn4⟩ :=
    coerceCol_ok df3 "focus" (fun s => (toNum s).map Val.vnum)
      (by rw [hn3, hn2, hn1, df0_names]; exact hfc)
  refine ⟨df4, ?_, by rw [hn4, hn3, hn2, hn1, df0_names]⟩
  unfold load_table
  simp only [h1, h2, h3, h4]

/-- C5 (amended): for every source whose header contains the four coerced
columns (timestamp, mood, sleep_hours, focus), `load_data` returns a table
whose columns are exactly the fixed expected column set in the fixed order,
and every required column absent from the header comes back as a column of
all-missing values.  (The unamended claim fails: a header missing a coerced
column raises, see the counterexample.) -/
theorem load_data_fills_missing_columns
    (toDT : String → Option Int) (toNum : String → Option ℚ)
    (header : List String) (rows : List (List String))
    (hts : "timestamp" ∈ header) (hmd : "mood" ∈ header)
    (hsl : "sleep_hours" ∈ header) (hfc : "focus" ∈ header) :
    ((load_data toDT toNum (header :: rows)).toOption.map fun df => df.map Prod.fst)
      = some cols
    ∧ ∀ c, c ∈ cols → c ∉ header →
        ((load_data toDT toNum (header :: rows)).toOption.bind fun df => getCol df c)
          = some (List.replicate rows.length (none : Cell)) := by
  cases rows with
  | nil =>
    constructor
    · rfl
    · intro c hc hch
      have hld : load_data toDT toNum [header]
          = Except.ok (cols.map fun c => (c, ([] : List Cell))) := rfl
      rw [hld]
      show getCol (cols.map fun x => (x, ([] : List Cell))) c = _
      rw [getCol_of_build cols (fun _ => ([] : List Cell)) c hc]
      rfl
  | cons r0 rs =>
    obtain ⟨df4, hld, hn4⟩ := load_table_ok toDT toNum header (r0 :: rs) hts hmd hsl hfc
    have hload : load_data toDT toNum (header :: r0 :: rs)
        = load_table toDT toNum header (r0 :: rs) := rfl
    constructor
    · rw [hload, hld]
      rfl
    · intro c hc hch
      rw [hload, hld]
      show getCol (cols.map fun x =>
        (x, (getCol (fill_missing_cols (r0 :: rs).length df4) x).getD [])) c = _
      rw [getCol_of_build cols
        (fun x => (getCol (fill_missing_cols (r0 :: rs).length df4) x).getD []) c hc]
      have hmiss : getCol (fill_missing_cols (r0 :: rs).length df4) c
          = some (List.replicate (r0 :: rs).length (none : Cell)) := by
        unfold fill_missing_cols
        exact foldl_fillStep_missing _ cols df4 c (by rw [hn4]; exact hch) hc
      rw [hmiss]
      rfl

/-- Counterexample to C5 as stated: a source whose header lacks the coerced
column "timestamp" makes `load_data` raise the pandas `KeyError` at
`df["timestamp"] = pd.to_datetime(...)` — the missing-column fill never runs. -/
theorem load_data_missing_coerced_column_raises :
    load_data toDatetime0 toNumeric0 [["organization"], ["x"]]
      = Except.error "KeyError: timestamp" := rfl

/-- Witness for C5 (amended), at a header holding exactly the four coerced
columns with one data row: the output columns are the fixed nine and the
absent "comment" column comes back as one missing value. -/
theorem load_data_fills_missing_columns_witness :
    ((load_data toDatetime0 toNumeric0
        [["timestamp", "mood", "sleep_hours", "focus"],
         ["1", "2", "3", "4"]]).toOption.map fun df => df.map Prod.fst)
      = some cols
    ∧ ((load_data toDatetime0 toNumeric0
        [["timestamp", "mood", "sleep_hours", "focus"],
         ["1", "2", "3", "4"]]).toOption.bind fun df => getCol df "comment")
      = some (List.replicate 1 (none : Cell)) :=
  ⟨(load_data_fills_missing_columns toDatetime0 toNumeric0
      ["timestamp", "mood", "sleep_hours", "focus"] [["1", "2", "3", "4"]]
      (by decide) (by decide) (by decide) (by decide)).1,
   (load_data_fills_missing_columns toDatetime0 toNumeric0
      ["timestamp", "mood", "sleep_hours", "focus"] [["1", "2", "3", "4"]]
      (by decide) (by decide) (by decide) (by decide)).2 "comment"
      (by decide) (by decide)⟩

/-- Counterexample to C6 as stated: with an active two-sided date range but a
surviving table whose timestamps are all missing, the guard
`filtered["timestamp"].notna().any()` is False, the date mask is skipped, and
the missing-timestamp record is included, not excluded. -/
theorem date_filter_keeps_all_missing_timestamps :
    apply_filters [rec_no_ts] [] [] (some (0, 100)) = [rec_no_ts]
    ∧ rec_no_ts.timestamp = none := ⟨rfl, rfl⟩

/-- C6 (amended): with a two-sided date range active, `apply_filters` excludes
every record whose timestamp is missing PROVIDED at least one record surviving
the organization/role filters has a non-missing timestamp; with no date filter
the surviving records are returned regardless of timestamp, and when every
surviving timestamp is missing the date mask is skipped entirely. -/
theorem date_filter_excludes_missing_timestamps
    (records : List SrcRecord) (org_filter role_filter : List String)
    (start stop : Int) :
    ((org_role_filtered records org_filter role_filter).any
        (fun r => r.timestamp.isSome) = true →
      ∀ r ∈ apply_filters records org_filter role_filter (some (start, stop)),
        r.timestamp.isSome = true)
    ∧ (∀ r ∈ records,
        (org_filter.isEmpty = true ∨ orgPass org_filter r = true) →
        (role_filter.isEmpty = true ∨ rolePass role_filter r = true) →
        r ∈ apply_filters records org_filter role_filter none)
    ∧ ((org_role_filtered records org_filter role_filter).any
        (fun r => r.timestamp.isSome) = false →
      apply_filters records org_filter role_filter (some (start, stop))
        = apply_filters records org_filter role_filter none) := by
  have hsome : apply_filters records org_filter role_filter (some (start, stop))
      = if (org_role_filtered records org_filter role_filter).any
            (fun r => r.timestamp.isSome)
        then (org_role_filtered records org_filter role_filter).filter
          (datePass start stop)
        else org_role_filtered records org_filter role_filter := rfl
  have hnone : apply_filters records org_filter role_filter none
      = org_role_filtered records org_filter role_filter := rfl
  refine ⟨?_, ?_, ?_⟩
  · intro hg r hr
    rw [hsome, hg, if_pos rfl] at hr
    have hr' := (List.mem_filter.mp hr).2
    unfold datePass at hr'
    cases ht : r.timestamp with
    | none => rw [ht] at hr'; exact absurd hr' (by simp)
    | some t => rfl
  · intro r hr ho hrl
    rw [hnone]
    unfold org_role_filtered
    have h1 : r ∈ (if org_filter.isEmpty then records
        else records.filter (orgPass org_filter)) := by
      rcases ho with h | h
      · rw [h]
        simpa using hr
      · cases he : org_filter.isEmpty
        · simp only [Bool.false_eq_true, if_false]
          exact List.mem_filter.mpr ⟨hr, h⟩
        · simpa using hr
    rcases hrl with h | h
    · rw [h]
      simpa using h1
    · cases he : role_filter.isEmpty
      · simp only [Bool.false_eq_true, if_false]
        exact List.mem_filter.mpr ⟨h1, h⟩
      · simpa using h1
  · intro hg
    rw [hsome, hnone, hg, if_neg (by simp)]

/-- Witness for C6 (amended): with one dated and one undated record and an
active range, the undated record is excluded and the dated one survives. -/
theorem date_filter_excludes_missing_timestamps_witness :
    rec_with_ts.timestamp.isSome = true
    ∧ rec_no_ts ∈ apply_filters [rec_no_ts] [] [] none :=
  ⟨(date_filter_excludes_missing_timestamps [rec_with_ts, rec_no_ts] [] [] 0 10).1
      (by decide) rec_with_ts (by decide),
   (date_filter_excludes_missing_timestamps [rec_no_ts] [] [] 0 10).2.1
      rec_no_ts (by decide) (Or.inl rfl) (Or.inl rfl)⟩
